import Mathlib

/-!
Verification development for the multiyt-dlp download orchestrator.

The Python sources under `src/` are embedded shallowly: every definition below
mirrors one function (or one branch of one function) of the source, with the
file and line range named in its doc comment.  Machine-level effects that no
property below depends on (logging, OS signals, actual subprocess I/O) are
not modelled; queues, counters, the active-process table and the stream of
GUI events are modelled as explicit state.
-/

/-! ### Python string primitives

The source manipulates Python `str` values.  We model the operations used by
the code (`strip`, `lower`, `startswith`, slicing, `splitlines`, substring
containment) over Lean strings via their character lists.  All inputs of
interest are ASCII, where these models agree with CPython.
-/

namespace Py

/-- Python `str.strip()` (ASCII whitespace). -/
def strip (s : String) : String :=
  String.mk (((s.data.dropWhile Char.isWhitespace).reverse.dropWhile Char.isWhitespace).reverse)

/-- Python `str.lower()` (ASCII case folding). -/
def lower (s : String) : String :=
  String.mk (s.data.map Char.toLower)

/-- Python `s.startswith(pre)`. -/
def startswith (s pre : String) : Bool :=
  pre.data.isPrefixOf s.data

/-- Python slicing `s[n:]`. -/
def drop (s : String) (n : Nat) : String :=
  String.mk (s.data.drop n)

/-- Python slicing `s[:n]`. -/
def take (s : String) (n : Nat) : String :=
  String.mk (s.data.take n)

/-- Python `len(s)` (character count). -/
def len (s : String) : Nat :=
  s.data.length

/-- Core of substring containment: does `needle` occur inside `hay`? -/
def containsSubL (needle : List Char) : List Char → Bool
  | [] => needle.isEmpty
  | c :: rest => needle.isPrefixOf (c :: rest) || containsSubL needle rest

/-- Python `needle in hay` for strings (substring containment). -/
def containsSub (hay needle : String) : Bool :=
  containsSubL needle.data hay.data

/-- Remainder of `cs` after the first occurrence of `pat`; models the capture
group of `re.search(pat + r preceding a greedy rest-of-line group)`. -/
def afterSubL (pat : List Char) : List Char → Option (List Char)
  | [] => if pat.isEmpty then some [] else none
  | c :: rest =>
    if pat.isPrefixOf (c :: rest) then some ((c :: rest).drop pat.length)
    else afterSubL pat rest

/-- `afterSubL` lifted to strings. -/
def afterSub (hay pat : String) : Option String :=
  (afterSubL pat.data hay.data).map String.mk

/-- Split a character list at newline characters, keeping empty pieces. -/
def splitNl : List Char → List (List Char)
  | [] => [[]]
  | c :: rest =>
    let tail := splitNl rest
    if c = '\n' then [] :: tail
    else
      match tail with
      | [] => [[c]]
      | piece :: more => (c :: piece) :: more

/-- Python `str.splitlines()` restricted to `'\n'` separators.  In the source
it is only applied to `strip`ped text, which has no trailing newline, so the
trailing-separator special case of CPython never arises. -/
def splitlines (s : String) : List String :=
  if s.data.isEmpty then [] else (splitNl s.data).map String.mk

/-- Python `s.rstrip(c)` for a single character. -/
def rstripChar (s : String) (c : Char) : String :=
  String.mk ((s.data.reverse.dropWhile (fun x => x == c)).reverse)

end Py

/-! ### POSIX path helpers used by the source (`pathlib.Path`) -/

/-- Final path component, `Path(p).name` (POSIX separators). -/
def pathBaseName (p : String) : String :=
  String.mk ((p.data.reverse.takeWhile (fun c => c != '/')).reverse)

/-- `Path(p).parent` for POSIX-style paths without a trailing separator. -/
def pathParent (p : String) : String :=
  let cs := p.data
  let tail := cs.reverse.takeWhile (fun c => c != '/')
  if tail.length == cs.length then "."
  else
    let pre := cs.take (cs.length - tail.length - 1)
    if pre.isEmpty then "/" else String.mk pre

/-- Index of the last occurrence of `c` in `cs`, if any. -/
def lastIdxOf (c : Char) (cs : List Char) : Option Nat :=
  let k := (cs.reverse.takeWhile (fun x => x != c)).length
  if k == cs.length then none else some (cs.length - 1 - k)

/-- `Path(p).stem`: the final component without its suffix.  Following
pathlib, a dot at the very start or very end of the name is not a suffix. -/
def pathStem (p : String) : String :=
  let name := pathBaseName p
  let cs := name.data
  match lastIdxOf '.' cs with
  | some i => if 0 < i && i < cs.length - 1 then String.mk (cs.take i) else name
  | none => name

/-- `Path(a) / b` for a relative right operand `b` (POSIX). -/
def pathJoin (a b : String) : String :=
  a ++ "/" ++ b

/-- `Path(p).is_absolute()` on POSIX.  On Windows every absolute path
contains `/` or `\`, which the callers below test separately, so this model
does not change any acceptance decision. -/
def pathIsAbsolute (p : String) : Bool :=
  Py.startswith p "/"

/-! ### Data model

`src/src/jobs.py` — the `DownloadJob` dataclass.  The `options` dict carries
the keys built by the GUI (`src/src/gui.py` lines 169, 427) plus
`embed_metadata`, which exists in the configuration schema
(`src/src/config.py` line 29); a `JobOptions` structure models that dict.
-/

structure JobOptions where
  output_path : String
  filename_template : String
  download_type : String
  video_resolution : String
  audio_format : String
  embed_thumbnail : Bool
  embed_metadata : Bool
  deriving Repr, DecidableEq

/-- Models the empty dict `{}` attached to synthetic failure jobs in
`DownloadManager._url_processor_worker` (its entries are never read). -/
def emptyJobOptions : JobOptions :=
  { output_path := "", filename_template := "", download_type := ""
    video_resolution := "", audio_format := ""
    embed_thumbnail := false, embed_metadata := false }

/-- `src/src/jobs.py` lines 8-28: the `DownloadJob` dataclass. -/
structure DownloadJob where
  job_id : String
  original_url : String
  options : JobOptions
  playlist_index : Option Nat := none
  title : String := "Waiting for title..."
  status : String := "Queued"
  progress : String := "0%"
  deriving Repr, DecidableEq

/-- Messages put on `gui_queue` by the managers (the event stream consumed by
`AppController._on_manager_event`). -/
inductive Event where
  | resetProgress
  | urlProcessingDone
  | totalJobsUpdated
  | addJob (job : DownloadJob)
  | updateJob (jobId field value : String)
  | done (jobId status : String)
  deriving Repr, DecidableEq

/-- Terminal statuses carried by `done` events (`Completed`, `Failed…`,
`Cancelled`, `Error…`), per the spec's status taxonomy. -/
def isTerminalDoneStatus (st : String) : Bool :=
  st == "Completed" || Py.startswith st "Failed" || st == "Cancelled" ||
    Py.startswith st "Error"

/-! ### URLInfoExtractor (`src/src/url_extractor.py`) -/

namespace URLInfoExtractor

/-- Predicate of the scan in `_parse_yt_dlp_error`:
`line.lower().startswith('error:')`. -/
def isErrorLine (line : String) : Bool :=
  Py.startswith (Py.lower line) "error:"

/-- The truncation applied to a matched error line:
`line[6:].strip()`, and `[:200] + "..."` when longer than 200 characters. -/
def shapeErrorReason (line : String) : String :=
  let errorMsg := Py.strip (Py.drop line 6)
  if Py.len errorMsg > 200 then Py.take errorMsg 200 ++ "..." else errorMsg

/-- The `for line in stderr.strip().splitlines():` loop of
`_parse_yt_dlp_error` (lines 26-31): return at the first matching line. -/
def errorLineLoop : List String → Option String
  | [] => none
  | line :: rest =>
    if isErrorLine line then some (shapeErrorReason line)
    else errorLineLoop rest

/-- `src/src/url_extractor.py` lines 21-33: `_parse_yt_dlp_error`.
`none` models the uncaught `IndexError` of `splitlines()[-1]` on a
whitespace-only `stderr` (truthy string whose strip is empty). -/
def parse_yt_dlp_error (stderr : String) : Option String :=
  if stderr == "" then some "yt-dlp returned an error with no output."
  else
    match errorLineLoop (Py.splitlines (Py.strip stderr)) with
    | some msg => some msg
    | none => (Py.splitlines (Py.strip stderr)).getLast?

/-- Modelled from the spec: `URLProbe.countItems` / `get_video_count`.
`DownloadManager._url_processor_worker` (src/src/downloads.py line 182)
calls `extractor.get_video_count(url)`, but no method of that name exists in
`src/src/url_extractor.py`; per spec §4.2 the probe runs the acquisition
tool in flat-playlist, print-id mode.  This is the argv of that run. -/
def get_video_count_command (ytDlpPath url : String) : List String :=
  [ytDlpPath, "--flat-playlist", "--print", "%(id)s", url]

/-- Modelled from the spec: the 60-second timeout of `countItems` (§4.2). -/
def GET_VIDEO_COUNT_TIMEOUT : Nat := 60

/-- Modelled from the spec: `countItems` "returns the number of non-empty
output lines" of the probe run (§4.2). -/
def get_video_count (stdoutLines : List String) : Nat :=
  (stdoutLines.filter (fun l => l != "")).length

end URLInfoExtractor

/-! ### Settings validation (`src/src/config.py`) -/

namespace Settings

/-- The regular expression of the validator matched as a substring test:
`re.search` with the literal alternatives `%(title)` and `%(id)`. -/
def hasTitleOrIdField (value : String) : Bool :=
  Py.containsSub value "%(title)" || Py.containsSub value "%(id)"

/-- The error text raised by the validator. -/
def templateErrorMsg : String :=
  "Filename template is invalid. It must include %(title)s or %(id)s and cannot contain path separators."

/-- `src/src/config.py` lines 46-62: `Settings.validate_filename_template`. -/
def validate_filename_template (value : String) : Except String String :=
  let isInvalid :=
    value == "" ||
    !(hasTitleOrIdField value) ||
    Py.containsSub value "/" || Py.containsSub value "\\" ||
    Py.containsSub value ".." ||
    pathIsAbsolute value
  if isInvalid then Except.error templateErrorMsg else Except.ok value

/-- The acceptance condition exactly as claim C9 words it: the template
contains `%(title)` or `%(id)`, contains none of `/`, `\`, `..`, and is not
an absolute path. -/
def claimTemplateOk (value : String) : Prop :=
  (Py.containsSub value "%(title)" = true ∨ Py.containsSub value "%(id)" = true) ∧
  Py.containsSub value "/" = false ∧
  Py.containsSub value "\\" = false ∧
  Py.containsSub value ".." = false ∧
  pathIsAbsolute value = false

instance (value : String) : Decidable (claimTemplateOk value) := by
  unfold claimTemplateOk; infer_instance

end Settings

/-! ### DependencyManager (`src/src/dependencies.py`) -/

namespace DependencyManager

/-- `src/src/constants.py` lines 48-52: the OS-specific yt-dlp release URLs.
These URLs contain no percent-escapes, so `urllib.parse.unquote` is the
identity on them. -/
def YT_DLP_URLS : List (String × String) :=
  [("win32", "https://github.com/yt-dlp/yt-dlp/releases/latest/download/yt-dlp.exe"),
   ("linux", "https://github.com/yt-dlp/yt-dlp/releases/latest/download/yt-dlp"),
   ("darwin", "https://github.com/yt-dlp/yt-dlp/releases/latest/download/yt-dlp_macos")]

/-- `src/src/dependencies.py` lines 282-284 in
`_install_or_update_yt_dlp_thread`: the name of the file written next to the
application binary (`save_path = APP_PATH / ...`), relative to `APP_PATH`. -/
def ytDlpSaveName (platform : String) : Option String :=
  ((YT_DLP_URLS.find? (fun p => p.1 == platform)).map (fun p => p.2)).map
    (fun url =>
      let filename := pathBaseName url
      if platform == "darwin" && filename == "yt-dlp_macos" then "yt-dlp" else filename)

/-- The canonical executable name next to the application binary:
`src/src/dependencies.py` line 79 in `_find_executable`
(`<name>.exe` on Windows, `<name>` otherwise). -/
def canonicalExecName (platform name : String) : String :=
  if platform == "win32" then name ++ ".exe" else name

/-- Where, relative to the run of `_download_file_single_stream`, the user's
cancellation (`stop_event.set()`) is observed. -/
inductive CancelPoint where
  | noCancel
  | beforeStart
  | duringTransfer (chunksWritten : Nat)
  deriving Repr, DecidableEq

/-- `src/src/dependencies.py` lines 175-204: `_download_file_single_stream`,
modelled over the byte contents at `save_path` and the successful response
body as a list of 8 KiB chunks.  Returns the bytes at `save_path` after the
run and whether `DownloadCancelledError` was raised.

* no cancellation: the body is written in full;
* cancellation before the attempt starts (line 178): raised before
  `save_path.open('wb')`, the file keeps its previous bytes;
* cancellation during the transfer, after `k` chunks were written
  (line 190): `save_path` was opened with mode `'wb'` (truncation) and holds
  exactly the chunks written so far when the exception aborts the `with`
  block.  `DownloadCancelledError` is re-raised past the retry loop
  (line 200), so no further attempt rewrites the file. -/
def download_file_single_stream (origBytes : List Nat) (chunks : List (List Nat))
    (c : CancelPoint) : List Nat × Bool :=
  match c with
  | .noCancel => (chunks.flatten, false)
  | .beforeStart => (origBytes, true)
  | .duringTransfer k => ((chunks.take k).flatten, true)

end DependencyManager

/-! ### DownloadManager (`src/src/downloads.py`) -/

namespace DownloadManager

/-- The mutable state of `DownloadManager` (`src/src/downloads.py` lines
28-41) together with the stream of events it has put on `gui_queue`.
`workers` counts alive worker threads; `activeProcesses` maps job ids to the
pids of their subprocesses. -/
structure DMState where
  jobQueue : List DownloadJob
  urlQueue : List (String × JobOptions)
  workers : Nat
  completed : Nat
  total : Nat
  maxConcurrent : Nat
  stopSet : Bool
  activeProcesses : List (String × Nat)
  events : List Event
  ytDlpPath : Option String
  ffmpegPath : Option String
  deriving Repr, DecidableEq

/-- `src/src/downloads.py` lines 238-244: `_start_workers` tops the pool up
to `max_concurrent_downloads` alive workers (a no-op when already there). -/
def start_workers (s : DMState) : DMState :=
  { s with workers := max s.workers s.maxConcurrent }

/-- `src/src/downloads.py` lines 66-97: `start_downloads`.  The spawned
monitor and URL-processor threads are modelled separately; this function
captures the state mutations performed by the call itself. -/
def start_downloads (s : DMState) (urls : List String) (options : JobOptions) : DMState :=
  if s.ytDlpPath.isNone then s
  else
    let s1 := { s with completed := 0, total := 0 }
    let s2 := { s1 with events := s1.events ++ [Event.resetProgress] }
    let s3 := { s2 with stopSet := false }
    let s4 := start_workers s3
    { s4 with urlQueue := s4.urlQueue ++ urls.map (fun u => (u, options)) }

/-- The per-job mutation done by the loop of `add_jobs`
(lines 113-114: `job.status = "Queued"; job.progress = "0%"`). -/
def resetForRetry (j : DownloadJob) : DownloadJob :=
  { j with status := "Queued", progress := "0%" }

/-- `src/src/downloads.py` lines 99-121: `add_jobs`.  The loop checks
`stop_event` before each job; with the flag constant over the call it
re-enqueues either every job or none, while `total_jobs` is increased by
`len(jobs_to_add)` unconditionally after the loop (line 119).  The per-job
`add_job` event and queue put are aggregated in source order. -/
def add_jobs (s : DMState) (jobsToAdd : List DownloadJob) : DMState :=
  if s.ytDlpPath.isNone then s
  else
    let enq := if s.stopSet then [] else jobsToAdd.map resetForRetry
    let s1 := { s with
      events := s.events ++ enq.map Event.addJob,
      jobQueue := s.jobQueue ++ enq }
    let s2 := { s1 with total := s1.total + jobsToAdd.length }
    start_workers { s2 with events := s2.events ++ [Event.totalJobsUpdated] }

/-- `src/src/downloads.py` lines 123-168: `stop_all_downloads`.

Line by line: set `stop_event` (126); drain the job queue emitting
`done(id, Cancelled)` per drained job and drain the URL queue silently
(128-137); snapshot `active_processes` (139-140) and, for each entry,
attempt the graceful-then-forced group kill — pure OS effects, no state in
scope — then emit `done(id, Cancelled)` and delete the entry (142-164);
clean temp files (166, a file-system effect outside this state); finally
reset both counters to zero and emit `reset_progress` (167-168). -/
def stop_all_downloads (s : DMState) : DMState :=
  let s1 := { s with stopSet := true }
  let s2 := { s1 with
    events := s1.events ++ s1.jobQueue.map (fun (j : DownloadJob) => Event.done j.job_id "Cancelled"),
    jobQueue := [], urlQueue := [] }
  let s3 := { s2 with
    events := s2.events ++ s2.activeProcesses.map (fun (p : String × Nat) => Event.done p.1 "Cancelled"),
    activeProcesses := [] }
  { s3 with total := 0, completed := 0, events := s3.events ++ [Event.resetProgress] }

/-- `src/src/downloads.py` lines 263-300: `_build_yt_dlp_command`.
`TEMP_DOWNLOAD_DIR` (a module constant) is passed as `tempDownloadDir`. -/
def build_yt_dlp_command (ytDlpPath : String) (ffmpegPath : Option String)
    (tempDownloadDir : String) (job : DownloadJob) : List String :=
  let outputPathTemplate := pathJoin job.options.output_path job.options.filename_template
  let command := [ytDlpPath, "--newline",
    "--progress-template", "PROGRESS::%(progress._percent_str)s",
    "--no-mtime",
    "--paths", "temp:" ++ tempDownloadDir,
    "-o", outputPathTemplate]
  let command := command ++
    (match ffmpegPath with
     | some p => ["--ffmpeg-location", pathParent p]
     | none => [])
  let command := command ++
    (if job.options.download_type == "video" then
      let res := job.options.video_resolution
      let fStr :=
        if Py.lower res != "best" then
          "bestvideo[height<=" ++ res ++ "][ext=mp4]+bestaudio[ext=m4a]/best[ext=mp4]/best[height<=" ++ res ++ "]"
        else
          "bestvideo[ext=mp4]+bestaudio[ext=m4a]/best[ext=mp4]/best"
      ["-f", fStr]
    else if job.options.download_type == "audio" then
      let audioFormat := job.options.audio_format
      ["-f", "bestaudio/best", "-x"] ++
        (if audioFormat != "best" then
          ["--audio-format", audioFormat] ++
            (if audioFormat == "mp3" then ["--audio-quality", "192K"] else [])
        else [])
    else [])
  let command := command ++ (if job.options.embed_thumbnail then ["--embed-thumbnail"] else [])
  let command := command ++
    (match job.playlist_index with
     | some i => ["--playlist-items", toString i]
     | none => [])
  command ++ [job.original_url]

end DownloadManager

namespace DownloadManager

/-- Word characters of the regex class `\w` (ASCII). -/
def isWordChar (c : Char) : Bool :=
  c.isAlphanum || c == '_'

/-- Try to match `\[(\w+)\]` at the head of the character list. -/
def bracketedAt : List Char → Option (List Char)
  | '[' :: rest =>
    let w := rest.takeWhile isWordChar
    if w.length > 0 && (rest.drop w.length).head? == some (']') then some w else none
  | _ => none

/-- First match of `re.search(r'\[(\w+)\]', line)`: the regex engine tries
each start position left to right. -/
def firstBracketedWord : List Char → Option (List Char)
  | [] => none
  | c :: rest =>
    match bracketedAt (c :: rest) with
    | some w => some w
    | none => firstBracketedWord rest

/-- `src/src/downloads.py` line 338: the stage-marker status map. -/
def statusMap : List (String × String) :=
  [("merger", "Merging..."), ("extractaudio", "Extracting Audio..."),
   ("embedthumbnail", "Embedding..."), ("fixupm4a", "Fixing M4a..."),
   ("metadata", "Writing Metadata...")]

/-- Association-list lookup (Python dict access with `in` guard). -/
def lookupStr (m : List (String × String)) (k : String) : Option String :=
  ((m.find? (fun p => p.1 == k)).map (fun p => p.2))

/-- Lines 335-339: the bracketed stage marker of a stdout line, mapped
through `status_map`. -/
def statusFromLine (cleanLine : String) : Option String :=
  match firstBracketedWord cleanLine.data with
  | some w => lookupStr statusMap (String.mk (w.map Char.toLower))
  | none => none

/-- Shape test standing in for Python `float()` on the token kinds yt-dlp
emits (non-negative decimal literals); exotic literals accepted by `float`
(signs, exponents, `inf`) do not occur in progress lines. -/
def isFloatToken (cs : List Char) : Bool :=
  !cs.isEmpty && cs.all (fun c => c.isDigit || c == '.') &&
    (cs.filter (fun c => c == '.')).length ≤ 1 && cs.any Char.isDigit

/-- Try to match `(\d+\.?\d*)%` at the head of the character list, returning
the captured number.  Maximal munch on the digit groups coincides with the
regex engine's backtracking here, since a shorter `\d+` leaves a digit where
`%` or end-of-pattern is required. -/
def numPercentAt (cs : List Char) : Option (List Char) :=
  let d1 := cs.takeWhile Char.isDigit
  if d1.isEmpty then none
  else
    let rest := cs.drop d1.length
    match rest with
    | '.' :: r2 =>
      let d2 := r2.takeWhile Char.isDigit
      if (r2.drop d2.length).head? == some ('%') then some (d1 ++ '.' :: d2)
      else if rest.head? == some ('%') then some d1
      else none
    | '%' :: _ => some d1
    | _ => none

/-- First match of `re.search(r'(\d+\.?\d*)%', line)`. -/
def firstNumPercent : List Char → Option (List Char)
  | [] => none
  | c :: rest =>
    match numPercentAt (c :: rest) with
    | some w => some w
    | none => firstNumPercent rest

/-- Lines 340-348: the percentage extracted from a stdout line.  The matched
number is kept as its source text; the `float()` round trip and the `%.1f`
re-formatting of the emitted value are abstracted (no property below reads
the progress string).  As in the source, a `PROGRESS::` line that fails to
parse yields no progress event and the `[download]` fallback is not tried. -/
def percentValue (cleanLine : String) : Option String :=
  if Py.startswith cleanLine "PROGRESS::" then
    let tok := Py.rstripChar (Py.strip (Py.drop cleanLine 10)) '%'
    if isFloatToken tok.data then some tok else none
  else if Py.containsSub cleanLine "[download]" then
    (firstNumPercent cleanLine.data).map String.mk
  else none

/-- Per-job accumulator of the stdout loop: the running title (`job.title`
is mutated in place), the captured `ERROR:` reason, and the events emitted
so far by the loop. -/
structure LineAcc where
  title : String
  errorMessage : Option String
  events : List Event
  deriving Repr, DecidableEq

/-- `src/src/downloads.py` lines 320-349: the body of the stdout read loop
of `_run_download_process`, for one line.  Event order per line follows the
source: title update, then stage status, then progress. -/
def processLine (jobId : String) (acc : LineAcc) (rawLine : String) : LineAcc :=
  let cleanLine := Py.strip rawLine
  let titleStep : String × List Event :=
    match Py.afterSub cleanLine "[download] Destination: " with
    | some fp =>
      let newTitle := pathStem (Py.strip fp)
      if newTitle != "" && newTitle != acc.title then
        (newTitle, [Event.updateJob jobId "title" newTitle])
      else (acc.title, [])
    | none => (acc.title, [])
  let errStep : Option String :=
    if Py.startswith cleanLine "ERROR:" then some (Py.strip (Py.drop cleanLine 6))
    else acc.errorMessage
  let statusEvents : List Event :=
    match statusFromLine cleanLine with
    | some st => [Event.updateJob jobId "status" st]
    | none => []
  let progressEvents : List Event :=
    match percentValue cleanLine with
    | some p => [Event.updateJob jobId "progress" (p ++ "%")]
    | none => []
  { title := titleStep.1, errorMessage := errStep,
    events := acc.events ++ titleStep.2 ++ statusEvents ++ progressEvents }

/-- How the launched subprocess behaves, as observed by
`_run_download_process`: either `Popen` succeeds and the process produces
`lines` on stdout before exiting with `returnCode`, or `Popen` raises. -/
inductive LaunchOutcome where
  | launched (pid : Nat) (lines : List String) (returnCode : Int)
  | fileNotFound
  | timedOut
  | osError
  | unexpectedError
  deriving Repr, DecidableEq

/-- `src/src/downloads.py` lines 302-374: `_run_download_process`.

`stopAt = some k` models the stop signal being raised while the job runs:
the read loop breaks after `k` lines (line 321) and the post-wait check
(line 354) returns, so the `finally` block only deregisters the process —
no counter increment, no `done` event.  `stopAt = none` is an undisturbed
run: the terminal status is computed from the exit code and the captured
`ERROR:` reason (lines 355-356), and the `finally` block deregisters the
process, increments `completed_jobs` and emits `done` (lines 369-374).
If the stop flag is already set when the process would be registered
(line 315), the method returns with no effect.  When `Popen` itself raises
(lines 357-368), `final_status` is `"Error"` and nothing was registered. -/
def run_download_process (s : DMState) (job : DownloadJob) (outcome : LaunchOutcome)
    (stopAt : Option Nat) : DMState :=
  if s.stopSet then s
  else
    match outcome with
    | .launched pid lines rc =>
      let s1 := { s with activeProcesses := s.activeProcesses ++ [(job.job_id, pid)] }
      let readLines := match stopAt with | none => lines | some k => lines.take k
      let acc := readLines.foldl (processLine job.job_id)
        { title := job.title, errorMessage := none, events := [] }
      let s2 := { s1 with events := s1.events ++ acc.events }
      match stopAt with
      | some _ =>
        { s2 with activeProcesses :=
            s2.activeProcesses.filter (fun (p : String × Nat) => p.1 != job.job_id) }
      | none =>
        let finalStatus :=
          if rc == 0 then "Completed"
          else
            match acc.errorMessage with
            | some m => "Failed: " ++ Py.take m 60
            | none => "Failed"
        let s3 := { s2 with activeProcesses :=
          s2.activeProcesses.filter (fun (p : String × Nat) => p.1 != job.job_id) }
        { s3 with
          completed := s3.completed + 1,
          events := s3.events ++ [Event.done job.job_id finalStatus] }
    | _ =>
      let s3 := { s with activeProcesses :=
        s.activeProcesses.filter (fun (p : String × Nat) => p.1 != job.job_id) }
      match stopAt with
      | some _ => s3
      | none =>
        { s3 with
          completed := s3.completed + 1,
          events := s3.events ++ [Event.done job.job_id "Error"] }

/-- `src/src/downloads.py` lines 207-212: the `URLExtractionError` branch of
`_url_processor_worker`.  A synthetic job with empty options is announced
via `add_job`, followed immediately by `done(job_id, "Failed")`; neither
counter is touched on this path (the earlier `total_jobs` increase at lines
185-188 is skipped because `get_video_count` raised). -/
def url_processor_failure_step (s : DMState) (url errMsg jobId : String) : DMState :=
  let job : DownloadJob :=
    { job_id := jobId, original_url := url, options := emptyJobOptions
      playlist_index := none, title := "Error: " ++ errMsg
      status := "Error: " ++ errMsg, progress := "N/A" }
  { s with events := s.events ++ [Event.addJob job, Event.done jobId "Failed"] }

/-- `src/src/downloads.py` lines 246-261: one iteration of `_worker_thread`.
An empty job queue is the `queue.Empty` branch (the iteration does
nothing).  Otherwise the job at the head is dequeued; if the stop flag is
observed at the pre-run check (line 253) the worker emits
`done(job_id, Cancelled)` and continues — touching no counter; otherwise it
emits `update_job(status, Downloading)` (line 256) and hands the job to
`_run_download_process` (line 257).  The stop flag may have been raised
while the worker was blocked in `get`, so the pre-run branch is reachable
even though the loop head checked the flag before. -/
def worker_step (s : DMState) (outcome : LaunchOutcome) (stopAt : Option Nat) : DMState :=
  match s.jobQueue with
  | [] => s
  | job :: rest =>
    let s1 := { s with jobQueue := rest }
    if s1.stopSet then
      { s1 with events := s1.events ++ [Event.done job.job_id "Cancelled"] }
    else
      let s2 := { s1 with
        events := s1.events ++ [Event.updateJob job.job_id "status" "Downloading"] }
      run_download_process s2 job outcome stopAt

end DownloadManager

/-! ### AppController (`src/src/controller.py`) -/

namespace AppController

/-- The controller state touched by the operations below
(`src/src/controller.py` lines 39-41): the ordered job store (a Python dict
preserves insertion order), the downloading flag and the pending download
task, together with the dependency paths held by `dep_manager`. -/
structure CtrlState where
  isDownloading : Bool
  pendingDownloadTask : Option (List String × JobOptions)
  jobStore : List (String × DownloadJob)
  ytDlpPath : Option String
  ffmpegPath : Option String
  deriving Repr, DecidableEq

/-- How `AppController.start_downloads` returned. -/
inductive StartOutcome where
  | alreadyDownloading
  | noYtDlp
  | permissionError
  | pendingFfmpeg
  | started
  deriving Repr, DecidableEq

/-- `src/src/controller.py` lines 157-189: `start_downloads`.  The output
directory write probe (lines 166-172) is a file-system effect whose result
is the parameter `canWrite`.  In the `started` case the call goes on to
configure and invoke `DownloadManager.start_downloads`, modelled
separately. -/
def start_downloads (s : CtrlState) (urls : List String) (options : JobOptions)
    (canWrite : Bool) : CtrlState × StartOutcome :=
  if s.isDownloading then (s, .alreadyDownloading)
  else
    match s.ytDlpPath with
    | none => (s, .noYtDlp)
    | some _ =>
      if !canWrite then (s, .permissionError)
      else
        let isAudioDl := options.download_type == "audio"
        if (options.embed_thumbnail || isAudioDl) && s.ffmpegPath.isNone then
          ({ s with pendingDownloadTask := some (urls, options), isDownloading := true },
           .pendingFfmpeg)
        else
          ({ s with isDownloading := true }, .started)

/-- Dict lookup `self.job_store[item_id]` guarded by `item_id in`. -/
def lookupStore (store : List (String × DownloadJob)) (i : String) : Option DownloadJob :=
  ((store.find? (fun p => p.1 == i)).map (fun p => p.2))

/-- One `del self.job_store[job_id]`: `none` models the `KeyError` raised
when the key is absent. -/
def delKey (store : List (String × DownloadJob)) (i : String) :
    Option (List (String × DownloadJob)) :=
  if store.any (fun p => p.1 == i) then
    some (store.filter (fun p => p.1 != i))
  else none

/-- The `for job_id in job_ids_to_retry: del self.job_store[job_id]` loop
(lines 221-222), deleting left to right and failing at the first absent
key. -/
def delKeys (store : List (String × DownloadJob)) : List String →
    Option (List (String × DownloadJob))
  | [] => some store
  | i :: rest =>
    match delKey store i with
    | some store1 => delKeys store1 rest
    | none => none

/-- `src/src/controller.py` lines 214-227: `add_jobs_for_retry`, combined
with the `DownloadManager.add_jobs` call it makes.  `jobs_to_retry` keeps
only the ids found in the store (line 216) and the early return fires when
it is empty (lines 217-219); the deletion loop then runs over *all*
requested ids, so `none` models its uncaught `KeyError`.  The surviving
store and the updated manager state are returned. -/
def add_jobs_for_retry (s : CtrlState) (dm : DownloadManager.DMState)
    (jobIdsToRetry : List String) : Option (CtrlState × DownloadManager.DMState) :=
  let jobsToRetry := jobIdsToRetry.filterMap (lookupStore s.jobStore)
  if jobsToRetry.isEmpty then some (s, dm)
  else
    match delKeys s.jobStore jobIdsToRetry with
    | none => none
    | some store1 =>
      some ({ s with jobStore := store1, isDownloading := true },
        DownloadManager.add_jobs dm jobsToRetry)

end AppController

/-! ### Concrete fixtures used by the closed theorems below -/

/-- Video options with only `embed_thumbnail` set. -/
def optsThumb : JobOptions :=
  { output_path := "/home/u/dl", filename_template := "%(title).100s [%(id)s].%(ext)s"
    download_type := "video", video_resolution := "Best", audio_format := "mp3"
    embed_thumbnail := true, embed_metadata := false }

/-- Video options with only `embed_metadata` set. -/
def optsMeta : JobOptions :=
  { optsThumb with embed_thumbnail := false, embed_metadata := true }

/-- Audio options with neither embed flag set. -/
def optsAudio : JobOptions :=
  { optsThumb with download_type := "audio", embed_thumbnail := false }

/-- A job carrying `optsThumb`. -/
def jobThumb : DownloadJob :=
  { job_id := "job-thumb", original_url := "https://example.com/v/abc", options := optsThumb }

/-- A job carrying `optsMeta`. -/
def jobMeta : DownloadJob :=
  { job_id := "job-meta", original_url := "https://example.com/v/abc", options := optsMeta }

/-- Controller state with yt-dlp available, ffmpeg unknown, idle. -/
def ctrlNoFfmpeg : AppController.CtrlState :=
  { isDownloading := false, pendingDownloadTask := none, jobStore := []
    ytDlpPath := some "/app/yt-dlp", ffmpegPath := none }

/-- An idle manager state with yt-dlp configured. -/
def dmIdle : DownloadManager.DMState :=
  { jobQueue := [], urlQueue := [], workers := 0, completed := 0, total := 0
    maxConcurrent := 4, stopSet := false, activeProcesses := [], events := []
    ytDlpPath := some "/app/yt-dlp", ffmpegPath := none }

/-- The same manager state with the yt-dlp path unset. -/
def dmNoYtDlp : DownloadManager.DMState :=
  { dmIdle with ytDlpPath := none }

/-- Is this event a `done` (terminal) emission? -/
def isDoneEvent : Event → Bool
  | .done _ _ => true
  | _ => false

/-- Number of `done` events in an event stream. -/
def doneCount (evs : List Event) : Nat :=
  (evs.filter isDoneEvent).length

/-- A stderr text whose first error line carries a 201-character reason. -/
def longErrStderr : String :=
  "error:" ++ String.mk (List.replicate 201 'a')

/-- The reason `_parse_yt_dlp_error` produces for `longErrStderr`:
200 characters followed by an ellipsis, 203 characters in total. -/
def longErrReason : String :=
  String.mk (List.replicate 200 'a') ++ "..."

/-- A job that ended in failure, as stored in the controller's job store. -/
def jobFailed : DownloadJob :=
  { job_id := "job-fail", original_url := "https://example.com/v/abc"
    options := optsThumb, title := "Clip", status := "Failed: HTTP 403", progress := "37.0%" }

/-- Controller state holding exactly the failed job. -/
def ctrlWithFailed : AppController.CtrlState :=
  { isDownloading := false, pendingDownloadTask := none
    jobStore := [("job-fail", jobFailed)]
    ytDlpPath := some "/app/yt-dlp", ffmpegPath := none }

/-! ### Claim theorems -/

/-- C1: the claim says command assembly adds the thumbnail flag when
`embed_thumbnail` is set and the metadata flag when `embed_metadata` is set.
Evaluating `_build_yt_dlp_command`: the thumbnail half holds, but for a job
whose options set `embed_metadata` the assembled command contains no
metadata-embedding flag at all (neither `--embed-metadata` nor its alias
`--add-metadata`) — the option is dead in command assembly. -/
theorem c1_embed_metadata_flag_missing :
    "--embed-thumbnail" ∈
      DownloadManager.build_yt_dlp_command "/app/yt-dlp" (some "/opt/ffmpeg/ffmpeg") "/tmp/td" jobThumb ∧
    "--embed-thumbnail" ∉
      DownloadManager.build_yt_dlp_command "/app/yt-dlp" (some "/opt/ffmpeg/ffmpeg") "/tmp/td" jobMeta ∧
    "--embed-metadata" ∉
      DownloadManager.build_yt_dlp_command "/app/yt-dlp" (some "/opt/ffmpeg/ffmpeg") "/tmp/td" jobMeta ∧
    "--add-metadata" ∉
      DownloadManager.build_yt_dlp_command "/app/yt-dlp" (some "/opt/ffmpeg/ffmpeg") "/tmp/td" jobMeta := by
  decide

/-- C2: the claim says the pending-task capture and ffmpeg install trigger
fire exactly when audio kind, `embed_thumbnail` or `embed_metadata` is set
(with ffmpeg unknown).  Evaluating `AppController.start_downloads` with
ffmpeg unknown: a metadata-only request is started immediately with no
pending task captured, while an audio request and a thumbnail request are
captured as pending — the gate tests only `embed_thumbnail or audio`. -/
theorem c2_ffmpeg_gate_ignores_metadata :
    (AppController.start_downloads ctrlNoFfmpeg ["https://e/x"] optsMeta true).2 =
      AppController.StartOutcome.started ∧
    (AppController.start_downloads ctrlNoFfmpeg ["https://e/x"] optsMeta true).1.pendingDownloadTask =
      none ∧
    (AppController.start_downloads ctrlNoFfmpeg ["https://e/x"] optsAudio true).2 =
      AppController.StartOutcome.pendingFfmpeg ∧
    (AppController.start_downloads ctrlNoFfmpeg ["https://e/x"] optsThumb true).2 =
      AppController.StartOutcome.pendingFfmpeg ∧
    (AppController.start_downloads ctrlNoFfmpeg ["https://e/x"] optsAudio true).1.pendingDownloadTask =
      some (["https://e/x"], optsAudio) := by
  decide

/-- C3: the claim says a cancelled dependency install never modifies the
file at the canonical executable location.  For yt-dlp the install writes
`save_path = APP_PATH / <release file name>`, which on every platform *is*
the canonical executable location, and `_download_file_single_stream` opens
that very path with truncation: a cancellation observed during the transfer
(here after one 8 KiB chunk of a two-chunk body) leaves the file holding the
partial bytes `[9, 9]` instead of its previous contents `[1, 2, 3]`. -/
theorem c3_cancelled_install_truncates_canonical :
    DependencyManager.ytDlpSaveName "linux" =
      some (DependencyManager.canonicalExecName "linux" "yt-dlp") ∧
    DependencyManager.ytDlpSaveName "win32" =
      some (DependencyManager.canonicalExecName "win32" "yt-dlp") ∧
    DependencyManager.ytDlpSaveName "darwin" =
      some (DependencyManager.canonicalExecName "darwin" "yt-dlp") ∧
    DependencyManager.download_file_single_stream [1, 2, 3] [[9, 9], [8]]
      (DependencyManager.CancelPoint.duringTransfer 1) = ([9, 9], true) ∧
    ([9, 9] : List Nat) ≠ [1, 2, 3] := by
  decide

/-- C6: the item-count probe runs the acquisition tool in flat-playlist,
print-id mode with a 60-second timeout and returns the number of non-empty
output lines; a URL resolving to a single item (one non-empty id line on
stdout) yields 1.  Settled against the spec-modelled probe, since
`get_video_count` is called by `_url_processor_worker` but absent from
`src/src/url_extractor.py`. -/
theorem c6_count_items (ytDlp url idLine : String) (h : idLine ≠ "") :
    "--flat-playlist" ∈ URLInfoExtractor.get_video_count_command ytDlp url ∧
    "--print" ∈ URLInfoExtractor.get_video_count_command ytDlp url ∧
    "%(id)s" ∈ URLInfoExtractor.get_video_count_command ytDlp url ∧
    URLInfoExtractor.GET_VIDEO_COUNT_TIMEOUT = 60 ∧
    URLInfoExtractor.get_video_count [idLine] = 1 := by
  refine ⟨?_, ?_, ?_, rfl, ?_⟩
  · simp [URLInfoExtractor.get_video_count_command]
  · simp [URLInfoExtractor.get_video_count_command]
  · simp [URLInfoExtractor.get_video_count_command]
  · simp [URLInfoExtractor.get_video_count, h]

/-- C6 witness: the single-item case evaluated at a concrete id line. -/
theorem c6_count_items_witness :
    ("dQw4w9WgXcQ" : String) ≠ "" ∧ URLInfoExtractor.get_video_count ["dQw4w9WgXcQ"] = 1 :=
  ⟨by decide, (c6_count_items "/app/yt-dlp" "https://e/x" "dQw4w9WgXcQ" (by decide)).2.2.2.2⟩

/-- C10: with the yt-dlp path unset, `DownloadManager.start_downloads` and
`DownloadManager.add_jobs` return with the state untouched — no URL or job
enqueued, no worker started, no event emitted, counters unchanged. -/
theorem c10_no_yt_dlp_noop (s : DownloadManager.DMState)
    (urls : List String) (options : JobOptions) (jobs : List DownloadJob)
    (h : s.ytDlpPath = none) :
    DownloadManager.start_downloads s urls options = s ∧
    DownloadManager.add_jobs s jobs = s := by
  constructor
  · simp [DownloadManager.start_downloads, h]
  · simp [DownloadManager.add_jobs, h]

/-- C10 witness: the no-op evaluated at a concrete pathless state. -/
theorem c10_no_yt_dlp_noop_witness :
    dmNoYtDlp.ytDlpPath = none ∧
    DownloadManager.start_downloads dmNoYtDlp ["https://e/x"] optsThumb = dmNoYtDlp ∧
    DownloadManager.add_jobs dmNoYtDlp [jobThumb] = dmNoYtDlp :=
  ⟨rfl,
   (c10_no_yt_dlp_noop dmNoYtDlp ["https://e/x"] optsThumb [jobThumb] rfl).1,
   (c10_no_yt_dlp_noop dmNoYtDlp ["https://e/x"] optsThumb [jobThumb] rfl).2⟩

/-- C4: after `stop_all_downloads` returns, a `done(id, Cancelled)` event
has been emitted for every job drained from the job queue and for every
entry of the active-process table, the table is empty, and both counters
are zero. -/
theorem c4_stop_protocol (s : DownloadManager.DMState) :
    (∀ j ∈ s.jobQueue,
      Event.done j.job_id "Cancelled" ∈ (DownloadManager.stop_all_downloads s).events) ∧
    (∀ p ∈ s.activeProcesses,
      Event.done p.1 "Cancelled" ∈ (DownloadManager.stop_all_downloads s).events) ∧
    (DownloadManager.stop_all_downloads s).activeProcesses = [] ∧
    (DownloadManager.stop_all_downloads s).completed = 0 ∧
    (DownloadManager.stop_all_downloads s).total = 0 := by
  refine ⟨?_, ?_, rfl, rfl, rfl⟩
  · intro j hj
    simp only [DownloadManager.stop_all_downloads, List.mem_append, List.mem_map]
    exact Or.inl (Or.inl (Or.inr ⟨j, hj, rfl⟩))
  · intro p hp
    simp only [DownloadManager.stop_all_downloads, List.mem_append, List.mem_map]
    exact Or.inl (Or.inr ⟨p, hp, rfl⟩)

/-- C4 witness: the stop protocol applied to a state with one queued job and
one active process. -/
theorem c4_stop_protocol_witness :
    Event.done "job-thumb" "Cancelled" ∈
      (DownloadManager.stop_all_downloads
        { dmIdle with jobQueue := [jobThumb], activeProcesses := [("job-act", 77)] }).events ∧
    Event.done "job-act" "Cancelled" ∈
      (DownloadManager.stop_all_downloads
        { dmIdle with jobQueue := [jobThumb], activeProcesses := [("job-act", 77)] }).events ∧
    (DownloadManager.stop_all_downloads
        { dmIdle with jobQueue := [jobThumb], activeProcesses := [("job-act", 77)] }).completed = 0 :=
  ⟨(c4_stop_protocol _).1 jobThumb (by simp),
   (c4_stop_protocol _).2.1 ("job-act", 77) (by simp),
   (c4_stop_protocol _).2.2.2.1⟩


/-- Done events distribute over appended streams. -/
theorem doneCount_append (a b : List Event) :
    doneCount (a ++ b) = doneCount a + doneCount b := by
  simp [doneCount, List.filter_append]

/-- The stdout read loop never emits a `done` event: one line adds only
`update_job` events. -/
theorem processLine_doneCount (jid : String) (acc : DownloadManager.LineAcc)
    (line : String) :
    doneCount (DownloadManager.processLine jid acc line).events = doneCount acc.events := by
  unfold DownloadManager.processLine
  dsimp only
  rw [doneCount_append, doneCount_append, doneCount_append]
  have h1 : doneCount (match Py.afterSub (Py.strip line) "[download] Destination: " with
      | some fp =>
        let newTitle := pathStem (Py.strip fp)
        if newTitle != "" && newTitle != acc.title then
          (newTitle, [Event.updateJob jid "title" newTitle])
        else (acc.title, [])
      | none => (acc.title, ([] : List Event))).2 = 0 := by
    cases Py.afterSub (Py.strip line) "[download] Destination: " with
    | none => rfl
    | some fp =>
      dsimp only
      split
      · rfl
      · rfl
  have h2 : doneCount (match DownloadManager.statusFromLine (Py.strip line) with
      | some st => [Event.updateJob jid "status" st]
      | none => ([] : List Event)) = 0 := by
    cases DownloadManager.statusFromLine (Py.strip line) <;> rfl
  have h3 : doneCount (match DownloadManager.percentValue (Py.strip line) with
      | some p => [Event.updateJob jid "progress" (p ++ "%")]
      | none => ([] : List Event)) = 0 := by
    cases DownloadManager.percentValue (Py.strip line) <;> rfl
  rw [h1, h2, h3]
  omega

/-- Folding the stdout loop over any line list adds no `done` event. -/
theorem foldl_processLine_doneCount (jid : String) (lines : List String)
    (acc : DownloadManager.LineAcc) :
    doneCount ((lines.foldl (DownloadManager.processLine jid) acc).events) =
      doneCount acc.events := by
  induction lines generalizing acc with
  | nil => rfl
  | cons l rest ih =>
    rw [List.foldl_cons, ih, processLine_doneCount]

/-- A stream with zero `done` events contains none. -/
theorem doneCount_zero_no_done (evs : List Event) (h : doneCount evs = 0) :
    ∀ e ∈ evs, isDoneEvent e = false := by
  intro e he
  by_contra hne
  have ht : isDoneEvent e = true := by
    cases hfe : isDoneEvent e
    · exact absurd hfe hne
    · rfl
  have hmem : e ∈ evs.filter isDoneEvent := List.mem_filter.2 ⟨he, ht⟩
  have hlen : (evs.filter isDoneEvent).length = 0 := h
  rw [List.length_eq_zero.mp hlen] at hmem
  exact List.not_mem_nil e hmem

/-- C5 counterexample: the claim says every emission of a terminal `done`
event is accompanied by exactly one increment of `completed`.  The
URL-extraction failure path of `_url_processor_worker` emits the terminal
event `done(id, "Failed")` while `completed_jobs` stays untouched. -/
theorem c5_done_without_increment :
    Event.done "job-err" "Failed" ∈
      (DownloadManager.url_processor_failure_step dmIdle "https://e/bad" "boom" "job-err").events ∧
    isTerminalDoneStatus "Failed" = true ∧
    (DownloadManager.url_processor_failure_step dmIdle "https://e/bad" "boom" "job-err").completed =
      dmIdle.completed := by
  decide

/-- An undisturbed per-job run increments `completed_jobs` exactly once; a
run interrupted by the stop signal does not increment it. -/
theorem run_download_process_completed (s : DownloadManager.DMState)
    (job : DownloadJob) (outcome : DownloadManager.LaunchOutcome)
    (stopAt : Option Nat) (h : s.stopSet = false) :
    (DownloadManager.run_download_process s job outcome stopAt).completed =
      s.completed + (if stopAt = none then 1 else 0) := by
  unfold DownloadManager.run_download_process
  rw [h]
  cases outcome <;> cases stopAt <;> simp

/-- An undisturbed per-job run emits exactly one `done` event; a run
interrupted by the stop signal emits none. -/
theorem run_download_process_doneCount (s : DownloadManager.DMState)
    (job : DownloadJob) (outcome : DownloadManager.LaunchOutcome)
    (stopAt : Option Nat) (h : s.stopSet = false) :
    doneCount (DownloadManager.run_download_process s job outcome stopAt).events =
      doneCount s.events + (if stopAt = none then 1 else 0) := by
  unfold DownloadManager.run_download_process
  rw [h]
  cases outcome <;> cases stopAt
  all_goals dsimp only
  all_goals try simp only [doneCount_append, foldl_processLine_doneCount]
  all_goals simp [doneCount, isDoneEvent]
  all_goals
    intro a ha
    exact doneCount_zero_no_done _ (by rw [foldl_processLine_doneCount]; rfl) a ha

/-- C5 (amended): `completed_jobs` is incremented exactly once, together
with the single `done` emission, by a per-job run of
`_run_download_process` that finishes without the stop signal — also when
the job is handed over by a worker iteration; when the stop signal
interrupts the run (`stopAt = some _`), and on the `done` emissions of the
stop protocol, of the worker's pre-run cancellation check and of the
URL-extraction failure path, `completed_jobs` is not incremented (the stop
protocol instead resets both counters to zero). -/
theorem c5_increment_per_process_done (s : DownloadManager.DMState)
    (job : DownloadJob) (outcome : DownloadManager.LaunchOutcome)
    (stopAt : Option Nat) (url errMsg jid : String)
    (h : s.stopSet = false) :
    ((DownloadManager.run_download_process s job outcome stopAt).completed =
      s.completed + (if stopAt = none then 1 else 0)) ∧
    (doneCount (DownloadManager.run_download_process s job outcome stopAt).events =
      doneCount s.events + (if stopAt = none then 1 else 0)) ∧
    (doneCount (DownloadManager.stop_all_downloads s).events =
      doneCount s.events + s.jobQueue.length + s.activeProcesses.length ∧
      (DownloadManager.stop_all_downloads s).completed = 0) ∧
    (doneCount (DownloadManager.url_processor_failure_step s url errMsg jid).events =
      doneCount s.events + 1 ∧
      (DownloadManager.url_processor_failure_step s url errMsg jid).completed = s.completed) ∧
    (∀ (job2 : DownloadJob) (rest : List DownloadJob),
      doneCount (DownloadManager.worker_step
          { s with stopSet := true, jobQueue := job2 :: rest } outcome stopAt).events =
        doneCount s.events + 1 ∧
      Event.done job2.job_id "Cancelled" ∈ (DownloadManager.worker_step
          { s with stopSet := true, jobQueue := job2 :: rest } outcome stopAt).events ∧
      (DownloadManager.worker_step
          { s with stopSet := true, jobQueue := job2 :: rest } outcome stopAt).completed =
        s.completed) ∧
    (∀ (job2 : DownloadJob) (rest : List DownloadJob),
      (DownloadManager.worker_step
          { s with jobQueue := job2 :: rest } outcome stopAt).completed =
        s.completed + (if stopAt = none then 1 else 0) ∧
      doneCount (DownloadManager.worker_step
          { s with jobQueue := job2 :: rest } outcome stopAt).events =
        doneCount s.events + (if stopAt = none then 1 else 0)) := by
  refine ⟨run_download_process_completed s job outcome stopAt h,
    run_download_process_doneCount s job outcome stopAt h, ⟨?_, rfl⟩, ⟨?_, rfl⟩, ?_, ?_⟩
  · unfold DownloadManager.stop_all_downloads
    dsimp only
    rw [doneCount_append, doneCount_append, doneCount_append]
    have hj : doneCount (s.jobQueue.map fun (j : DownloadJob) =>
        Event.done j.job_id "Cancelled") = s.jobQueue.length := by
      simp [doneCount, List.filter_map, Function.comp, isDoneEvent]
    have hp : doneCount (s.activeProcesses.map fun (p : String × Nat) =>
        Event.done p.1 "Cancelled") = s.activeProcesses.length := by
      simp [doneCount, List.filter_map, Function.comp, isDoneEvent]
    rw [hj, hp]
    simp [doneCount, isDoneEvent]
  · unfold DownloadManager.url_processor_failure_step
    dsimp only
    rw [doneCount_append]
    simp [doneCount, isDoneEvent]
  · intro job2 rest
    refine ⟨?_, ?_, rfl⟩
    · show doneCount (s.events ++ [Event.done job2.job_id "Cancelled"]) =
        doneCount s.events + 1
      rw [doneCount_append]
      simp [doneCount, isDoneEvent]
    · show Event.done job2.job_id "Cancelled" ∈
        s.events ++ [Event.done job2.job_id "Cancelled"]
      simp
  · intro job2 rest
    constructor
    · unfold DownloadManager.worker_step
      rw [h]
      dsimp only
      try rw [if_neg Bool.false_ne_true]
      rw [run_download_process_completed _ job2 outcome stopAt (by rfl)]
    · unfold DownloadManager.worker_step
      rw [h]
      dsimp only
      try rw [if_neg Bool.false_ne_true]
      rw [run_download_process_doneCount _ job2 outcome stopAt (by rfl)]
      show doneCount (s.events ++ [Event.updateJob job2.job_id "status" "Downloading"]) + _ =
        doneCount s.events + _
      rw [doneCount_append]
      simp [doneCount, isDoneEvent]

/-- C5 witness: an undisturbed run at a concrete state increments
`completed` by one. -/
theorem c5_increment_per_process_done_witness :
    dmIdle.stopSet = false ∧
    (DownloadManager.run_download_process dmIdle jobThumb
      (DownloadManager.LaunchOutcome.launched 42 [] 0) none).completed = dmIdle.completed + 1 :=
  ⟨rfl, by
    have h := (c5_increment_per_process_done dmIdle jobThumb
      (DownloadManager.LaunchOutcome.launched 42 [] 0) none "u" "e" "j" rfl).1
    simpa using h⟩

/-- The scan loop of `_parse_yt_dlp_error` shapes the *first* matching
line, as `List.find?` does. -/
theorem errorLineLoop_eq_find (ls : List String) :
    URLInfoExtractor.errorLineLoop ls =
      (ls.find? URLInfoExtractor.isErrorLine).map URLInfoExtractor.shapeErrorReason := by
  induction ls with
  | nil => rfl
  | cons a t ih =>
    by_cases ha : URLInfoExtractor.isErrorLine a = true
    · simp [URLInfoExtractor.errorLineLoop, List.find?_cons, ha]
    · simp only [Bool.not_eq_true] at ha
      simp [URLInfoExtractor.errorLineLoop, List.find?_cons, ha, ih]

set_option maxRecDepth 20000 in
/-- C8 counterexample: the claim says the reason is the text after the
`error:` prefix truncated to at most 200 characters, but for a 201-character
reason `_parse_yt_dlp_error` returns the first 200 characters with `"..."`
appended — 203 characters, which is neither 200-truncation nor within the
200-character bound. -/
theorem c8_reason_exceeds_bound :
    URLInfoExtractor.parse_yt_dlp_error longErrStderr = some longErrReason ∧
    Py.len longErrReason = 203 ∧
    ¬(Py.len longErrReason ≤ 200) ∧
    longErrReason ≠ Py.take (Py.strip (Py.drop longErrStderr 6)) 200 := by
  refine ⟨?_, by decide, by decide, by decide⟩
  decide

/-- C8 (amended): on a non-empty stderr of a failed run, if some line of
the stripped stderr begins with `error:` (case-insensitively), the reason is
the first such line's text after the prefix, stripped, and — when longer
than 200 characters — cut to its first 200 characters with `"..."`
appended; otherwise the reason is the last line of the stripped stderr
(none exists for whitespace-only stderr, where the source raises
`IndexError`). -/
theorem c8_error_shaping (stderr : String) (h : stderr ≠ "") :
    (∀ l, (Py.splitlines (Py.strip stderr)).find? URLInfoExtractor.isErrorLine = some l →
      URLInfoExtractor.parse_yt_dlp_error stderr =
        some (URLInfoExtractor.shapeErrorReason l)) ∧
    ((Py.splitlines (Py.strip stderr)).find? URLInfoExtractor.isErrorLine = none →
      URLInfoExtractor.parse_yt_dlp_error stderr =
        (Py.splitlines (Py.strip stderr)).getLast?) := by
  have hs : (stderr == "") = false := by simp [h]
  constructor
  · intro l hl
    simp [URLInfoExtractor.parse_yt_dlp_error, hs, errorLineLoop_eq_find, hl]
  · intro hn
    simp [URLInfoExtractor.parse_yt_dlp_error, hs, errorLineLoop_eq_find, hn]

/-- C8 witness: a concrete failed-run stderr whose second line matches. -/
theorem c8_error_shaping_witness :
    ("WARNING: w\nERROR: nope" : String) ≠ "" ∧
    URLInfoExtractor.parse_yt_dlp_error "WARNING: w\nERROR: nope" = some "nope" := by
  refine ⟨by decide, ?_⟩
  have h := (c8_error_shaping "WARNING: w\nERROR: nope" (by decide)).1
    "ERROR: nope" (by decide)
  rw [h]
  decide

/-- C9: `validate_filename_template` accepts a template unchanged exactly
when it contains `%(title)` or `%(id)` and contains none of `/`, `\`, `..`
and is not absolute; every other template is rejected with a validation
error.  (The source's extra emptiness disjunct is subsumed: the empty
string contains neither field, and its absoluteness disjunct is genuine for
paths beginning with the separator.) -/
theorem c9_template_validation (v : String) :
    (Settings.validate_filename_template v = Except.ok v ↔ Settings.claimTemplateOk v) ∧
    (¬ Settings.claimTemplateOk v →
      Settings.validate_filename_template v = Except.error Settings.templateErrorMsg) := by
  have key : (v == "" || !(Settings.hasTitleOrIdField v) || Py.containsSub v "/" ||
      Py.containsSub v "\\" || Py.containsSub v ".." || pathIsAbsolute v) = false ↔
      Settings.claimTemplateOk v := by
    constructor
    · intro hfalse
      simp only [Bool.or_eq_false_iff] at hfalse
      obtain ⟨⟨⟨⟨⟨h0, h1⟩, h2⟩, h3⟩, h4⟩, h5⟩ := hfalse
      have ht : Settings.hasTitleOrIdField v = true := by
        revert h1; cases Settings.hasTitleOrIdField v <;> simp
      unfold Settings.hasTitleOrIdField at ht
      rw [Bool.or_eq_true] at ht
      exact ⟨ht, h2, h3, h4, h5⟩
    · intro hcl
      obtain ⟨h1, h2, h3, h4, h5⟩ := hcl
      have ht : Settings.hasTitleOrIdField v = true := by
        unfold Settings.hasTitleOrIdField
        rcases h1 with h | h <;> simp [h]
      have hvne : (v == "") = false := by
        by_cases hv : v = ""
        · subst hv
          rcases h1 with h | h
          · exact absurd h (by decide)
          · exact absurd h (by decide)
        · simp [hv]
      simp [hvne, ht, h2, h3, h4, h5]
  rcases Bool.eq_false_or_eq_true (v == "" || !(Settings.hasTitleOrIdField v) ||
      Py.containsSub v "/" || Py.containsSub v "\\" || Py.containsSub v ".." ||
      pathIsAbsolute v) with hB | hB
  · have hval : Settings.validate_filename_template v =
        Except.error Settings.templateErrorMsg := by
      simp [Settings.validate_filename_template, hB]
    refine ⟨⟨?_, ?_⟩, fun _ => hval⟩
    · intro hok
      rw [hval] at hok
      exact Except.noConfusion hok
    · intro hcl
      rw [key.mpr hcl] at hB
      exact Bool.noConfusion hB
  · have hval : Settings.validate_filename_template v = Except.ok v := by
      simp [Settings.validate_filename_template, hB]
    refine ⟨⟨fun _ => key.mp hB, fun _ => hval⟩, fun hncl => absurd (key.mp hB) hncl⟩

/-- C9 witness: both directions evaluated at concrete templates. -/
theorem c9_template_validation_witness :
    Settings.claimTemplateOk "%(title).100s [%(id)s].%(ext)s" ∧
    Settings.validate_filename_template "%(title).100s [%(id)s].%(ext)s" =
      Except.ok "%(title).100s [%(id)s].%(ext)s" ∧
    ¬ Settings.claimTemplateOk "../%(title)s.%(ext)s" ∧
    Settings.validate_filename_template "../%(title)s.%(ext)s" =
      Except.error Settings.templateErrorMsg :=
  ⟨by decide,
   (c9_template_validation "%(title).100s [%(id)s].%(ext)s").1.mpr (by decide),
   by decide,
   (c9_template_validation "../%(title)s.%(ext)s").2 (by decide)⟩

/-- The deletion loop of `add_jobs_for_retry` succeeds on distinct, present
ids and amounts to filtering those keys out of the store. -/
theorem delKeys_eq_filter (ids : List String) :
    ∀ store : List (String × DownloadJob),
      (∀ i ∈ ids, store.any (fun p => p.1 == i) = true) → ids.Nodup →
      AppController.delKeys store ids =
        some (store.filter (fun p => !(ids.contains p.1))) := by
  induction ids with
  | nil =>
    intro store _ _
    simp [AppController.delKeys]
  | cons i rest ih =>
    intro store hall hnd
    have hi : store.any (fun p => p.1 == i) = true := hall i (List.mem_cons_self i rest)
    have hdel : AppController.delKey store i = some (store.filter (fun p => p.1 != i)) := by
      simp [AppController.delKey, hi]
    have hrest : ∀ j ∈ rest,
        (store.filter (fun p => p.1 != i)).any (fun p => p.1 == j) = true := by
      intro j hj
      have hj2 := hall j (List.mem_cons_of_mem _ hj)
      rw [List.any_eq_true] at hj2 ⊢
      obtain ⟨p, hp, hpe⟩ := hj2
      have hpj : p.1 = j := by simpa using hpe
      have hji : j ≠ i := by
        intro e
        subst e
        exact (List.nodup_cons.mp hnd).1 hj
      exact ⟨p, List.mem_filter.2 ⟨hp, by simp [hpj, hji]⟩, hpe⟩
    simp only [AppController.delKeys, hdel]
    rw [ih (store.filter (fun p => p.1 != i)) hrest (List.nodup_cons.mp hnd).2]
    congr 1
    rw [List.filter_filter]
    apply List.filter_congr
    intro p _
    by_cases hpi : p.1 = i <;>
      simp [hpi, List.contains_cons, Bool.not_or, Bool.and_comm]

/-- C7 counterexample: the claim says each re-enqueued job carries a *new*
id.  Retrying the single failed id `job-fail` removes it from the store but
re-enqueues the very same job object: the queued job's id is again
`job-fail` (with the same captured options), not a fresh one. -/
theorem c7_retry_reuses_old_id :
    (AppController.add_jobs_for_retry ctrlWithFailed dmIdle ["job-fail"]).map
        (fun r => (r.1.jobStore, r.2.jobQueue.map (fun j => j.job_id),
                   r.2.jobQueue.map (fun j => j.options))) =
      some ([], ["job-fail"], [optsThumb]) := by
  decide

/-- C7 (amended): retrying a set S of failed job ids (distinct and present
in the store) is equivalent to removing S from the job store and then
enqueuing, via `DownloadManager.add_jobs`, the very job objects captured
for S: each re-enqueued job keeps its original id and its `JobOptions`
unchanged, with only `status` reset to `Queued` and `progress` to `0%`. -/
theorem c7_retry_equivalence (ctrl : AppController.CtrlState)
    (dm : DownloadManager.DMState) (ids : List String)
    (hpresent : ∀ i ∈ ids, (AppController.lookupStore ctrl.jobStore i).isSome = true)
    (hnodup : ids.Nodup) (hne : ids ≠ []) :
    AppController.add_jobs_for_retry ctrl dm ids =
      some ({ ctrl with
              jobStore := ctrl.jobStore.filter (fun p => !(ids.contains p.1)),
              isDownloading := true },
            DownloadManager.add_jobs dm
              (ids.filterMap (AppController.lookupStore ctrl.jobStore))) ∧
    (∀ j : DownloadJob,
      (DownloadManager.resetForRetry j).job_id = j.job_id ∧
      (DownloadManager.resetForRetry j).options = j.options ∧
      (DownloadManager.resetForRetry j).status = "Queued" ∧
      (DownloadManager.resetForRetry j).progress = "0%") := by
  refine ⟨?_, fun j => ⟨rfl, rfl, rfl, rfl⟩⟩
  have hne2 : (ids.filterMap (AppController.lookupStore ctrl.jobStore)).isEmpty = false := by
    cases ids with
    | nil => exact absurd rfl hne
    | cons i rest =>
      have hs := hpresent i (List.mem_cons_self i rest)
      rw [Option.isSome_iff_exists] at hs
      obtain ⟨j, hj⟩ := hs
      simp [List.filterMap_cons, hj]
  have hany : ∀ i ∈ ids, ctrl.jobStore.any (fun p => p.1 == i) = true := by
    intro i hi
    have hs := hpresent i hi
    unfold AppController.lookupStore at hs
    cases hf : ctrl.jobStore.find? (fun p => p.1 == i) with
    | none => rw [hf] at hs; simp at hs
    | some p =>
      rw [List.any_eq_true]
      have hq := List.find?_some hf
      exact ⟨p, List.mem_of_find?_eq_some hf, hq⟩
  unfold AppController.add_jobs_for_retry
  simp only [hne2, delKeys_eq_filter ids ctrl.jobStore hany hnodup]
  simp

/-- C7 witness: the equivalence applied at the concrete one-element store. -/
theorem c7_retry_equivalence_witness :
    AppController.add_jobs_for_retry ctrlWithFailed dmIdle ["job-fail"] =
      some ({ ctrlWithFailed with
              jobStore := ctrlWithFailed.jobStore.filter
                (fun p => !(["job-fail"].contains p.1)),
              isDownloading := true },
            DownloadManager.add_jobs dmIdle
              (["job-fail"].filterMap (AppController.lookupStore ctrlWithFailed.jobStore))) :=
  (c7_retry_equivalence ctrlWithFailed dmIdle ["job-fail"]
    (by decide) (by decide) (by decide)).1
